import Mathlib

/-!
Verification development for the God-Mind repository.

This file gives a shallow embedding of the task-dispatch pipeline of
`src/core/consciousness/apex_orchestrator.py` (class `ApexConsciousness`)
and of the session-memory store `src/memory/auto_memory_bank.py`, and
proves or refutes the specification claims about them.

Modelling conventions:
- Python dicts with string keys are association lists `List (String × _)`
  looked up by first match (dict keys are unique, so this coincides with
  Python's semantics); insertion `d[k] = v` is in-place update of an
  existing key or append of a new one, matching CPython's
  insertion-ordered dicts.
- Opaque payload leaves (`task.get("input")`, chat data, ...) are modelled
  by the scalar `Value` type; nothing in the dispatch pipeline inspects
  their structure.
- Python floats (`cognitive_load`, `confidence_score`, `time.time()`) are
  modelled as rationals `ℚ`: exact arithmetic.  All confidence values the
  code actually produces are small exact sums and divisions.
- A raised exception is an `Except.error`; `asyncio.gather(*tasks,
  return_exceptions=True)` is modelled by collecting one
  `Except Exn AgentResult` per launched coroutine.
- The executor `_execute_agent_task` is a stub that always succeeds with
  `cognitive_load = 0.85`; the claims quantify over executor behaviours
  (exceptions, explicit failures), so the pipeline is parametrised by an
  executor oracle, and the literal stub is embedded separately as
  `execute_agent_task_stub`.
- Mutable bookkeeping the pipeline never reads back (`Agent.status`,
  `Agent.processing_load`, `last_activity`, logging) is omitted: it does
  not flow into any return value.
-/

namespace GodMind

/-- Scalar payload values occurring in task dictionaries and results.
Nested payloads are never inspected by the dispatch pipeline, so scalar
leaves suffice for the embedding. -/
inductive Value where
  | vstr (s : String)
  | vnum (q : ℚ)
deriving DecidableEq

/-- A task, as in `process_cognitive_task(self, task: Dict[str, Any])`:
a string-keyed dictionary. -/
abbrev Task := List (String × Value)

/-- Python `d.get(k)`: first-match lookup in the association list. -/
def taskGet (t : Task) (k : String) : Option Value :=
  match t with
  | [] => none
  | (k', v) :: rest => if k' = k then some v else taskGet rest k

/-- `AgentTypeEnum` from apex_orchestrator.py lines 50-56. -/
inductive AgentTypeEnum where
  | trinity
  | specialist
  | orchestrator
  | memory
  | processor
deriving DecidableEq

/-- The fields of `Agent` (lines 58-71) that the dispatch pipeline reads:
`agent_id`, `agent_type`, `capabilities`.  The mutable bookkeeping fields
(`status`, `processing_load`, `last_activity`, `mcp_connections`) are
written by the stub executor but never read by any code path that reaches
a return value, so they are omitted. -/
structure Agent where
  agent_id : String
  agent_type : AgentTypeEnum
  capabilities : List String
deriving DecidableEq

/-- `self.agents : Dict[str, Agent]`, insertion ordered. -/
abbrev AgentMap := List (String × Agent)

/-- Dictionary lookup `self.agents[agent_id]` (first match). -/
def lookupAgent (agents : AgentMap) (agent_id : String) : Option Agent :=
  match agents with
  | [] => none
  | (k, a) :: rest => if k = agent_id then some a else lookupAgent rest agent_id

/-- Substring test on character lists, used to embed Python's
`"ingest" in agent_id` membership test on strings. -/
def listContainsSub (pat : List Char) : List Char → Bool
  | [] => pat.isEmpty
  | c :: rest => pat.isPrefixOf (c :: rest) || listContainsSub pat rest

/-- Python `pat in s` substring containment for strings. -/
def strContains (s pat : String) : Bool :=
  listContainsSub pat.data s.data

/-- Exceptions that can arise in the embedded pipeline: `KeyError` from
`self.agents[agent_id]` (line 339), `IndexError` from
`agent.capabilities[0]` (line 353), and the worker failure modes named in
the specification (§4.2) for the executor oracle.  The code defines no
`InvalidTaskError` of any kind. -/
inductive Exn where
  | keyError (k : String)
  | indexError
  | workerTimeoutError
  | workerUnavailableError
deriving DecidableEq

/-- The per-agent subtask dictionaries produced by
`_decompose_task_for_agent` (lines 337-357); one constructor per literal
dict shape in the source. -/
inductive Subtask where
  | dataIngestion (target : Option Value)
  | analysis (focus : Option Value)
  | resultSynthesis (format : Option Value)
  | specializedProcessing (specialty : String) (data : Option Value)
  | generalProcessing (data : Task)
deriving DecidableEq

/-- The result dictionary produced by one agent execution (lines 373-379):
`{agent_id, status, result, timestamp, cognitive_load}`. -/
structure AgentResult where
  agent_id : String
  status : String
  result : String
  timestamp : ℚ
  cognitive_load : ℚ
deriving DecidableEq

/-- The dictionary returned by `_generate_final_output` (lines 408-416). -/
structure FinalOutput where
  synthesis_complete : Bool
  agent_consensus : Nat
  output_quality : String
  recommendations : String
deriving DecidableEq

/-- The consolidated outcome dictionary built by `_consolidate_results`
(lines 383-406). -/
structure Consolidated where
  task_id : Value
  status : String
  agent_count : Nat
  processing_time : ℚ
  cognitive_synthesis : List AgentResult
  final_output : FinalOutput
  confidence_score : ℚ
deriving DecidableEq

/-- `_generate_final_output(results)` (lines 408-416): a fixed dictionary
whose only result-dependent field is `agent_consensus = len(results)`. -/
def generate_final_output (results : List AgentResult) : FinalOutput :=
  { synthesis_complete := true
    agent_consensus := results.length
    output_quality := "apex"
    recommendations := "Cognitive task completed successfully" }

/-- `_consolidate_results(results, task_id)` (lines 383-406).  The loop
appends every result to `cognitive_synthesis` in order and accumulates
`cognitive_load`; `confidence_score = total / len(results) if results
else 0.0`.  `processing_time = time.time()` is passed explicitly as
`now`. -/
def consolidate_results (results : List AgentResult) (task_id : Value) (now : ℚ) :
    Consolidated :=
  { task_id := task_id
    status := "completed"
    agent_count := results.length
    processing_time := now
    cognitive_synthesis := results
    final_output := generate_final_output results
    confidence_score :=
      if results = [] then 0
      else (results.map (fun r => r.cognitive_load)).sum / results.length }

/-- Inner body of `_decompose_task_for_agent` (lines 341-357), after the
`self.agents[agent_id]` lookup: branches on the agent's type and on
substring tests over `agent_id`; `agent.capabilities[0]` raises
`IndexError` on an empty capability list. -/
def decompose_for (agent : Agent) (agent_id : String) (task : Task) :
    Except Exn Subtask :=
  if agent.agent_type = AgentTypeEnum.trinity then
    if strContains agent_id "ingest" then
      Except.ok (Subtask.dataIngestion (taskGet task "input"))
    else if strContains agent_id "analyze" then
      Except.ok (Subtask.analysis (taskGet task "analysis_type"))
    else if strContains agent_id "publish" then
      Except.ok (Subtask.resultSynthesis (taskGet task "output_format"))
    else
      Except.ok (Subtask.generalProcessing task)
  else if agent.agent_type = AgentTypeEnum.specialist then
    match agent.capabilities with
    | [] => Except.error Exn.indexError
    | c :: _ => Except.ok (Subtask.specializedProcessing c (taskGet task "data"))
  else
    Except.ok (Subtask.generalProcessing task)

/-- `_decompose_task_for_agent(task, agent_id)` (lines 337-357):
`agent = self.agents[agent_id]` (raising `KeyError` when absent), then
the type/id-directed decomposition.  Note it never reads the task's
`type` field. -/
def decompose_task_for_agent (agents : AgentMap) (task : Task) (agent_id : String) :
    Except Exn Subtask :=
  match lookupAgent agents agent_id with
  | none => Except.error (Exn.keyError agent_id)
  | some agent => decompose_for agent agent_id task

/-- The task-building loop of `_coordinate_agent_execution` (lines
314-322): one `(agent_id, subtask)` per agent id, in order; a decompose
exception aborts the whole build (it is raised while the list is being
constructed, before any execution starts). -/
def build_agent_tasks (agents : AgentMap) (task : Task) :
    List String → Except Exn (List (String × Subtask))
  | [] => Except.ok []
  | id :: rest =>
    match decompose_task_for_agent agents task id with
    | Except.error e => Except.error e
    | Except.ok st =>
      match build_agent_tasks agents task rest with
      | Except.error e => Except.error e
      | Except.ok others => Except.ok ((id, st) :: others)

/-- A worker-executor oracle: the behaviour of one `_execute_agent_task`
call for a given agent id, subtask and context (`task.get("context",
{})`, modelled as the optional raw value).  The literal stub never fails;
the claims quantify over executors that may raise. -/
abbrev Executor := String → Subtask → Option Value → Except Exn AgentResult

/-- Keep a gathered slot only when it is not an exception, as in the
`isinstance(result, Exception)` filter of lines 328-335. -/
def okValue {ε α : Type} : Except ε α → Option α
  | Except.ok a => some a
  | Except.error _ => none

/-- `_coordinate_agent_execution(agent_ids, task)` (lines 312-335): build
the per-agent task list, run every execution
(`asyncio.gather(..., return_exceptions=True)` yields one
result-or-exception per slot), then drop the exception slots, returning
only `valid_results`. -/
def coordinate_agent_execution (agents : AgentMap) (task : Task)
    (agent_ids : List String) (ex : Executor) : Except Exn (List AgentResult) :=
  match build_agent_tasks agents task agent_ids with
  | Except.error e => Except.error e
  | Except.ok pairs =>
    Except.ok ((pairs.map (fun p => ex p.1 p.2 (taskGet task "context"))).filterMap okValue)

/-- `task.get("id", f"task_{int(time.time())}")` (line 273); `time.time()`
is passed as `now` (nonnegative in reality, so `int` truncation is
floor). -/
def taskIdOf (task : Task) (now : ℚ) : Value :=
  (taskGet task "id").getD (Value.vstr ("task_" ++ toString (Rat.floor now)))

/-- The memory-constellation environment `_store_in_memory` interacts
with: the configured API key (line 420) and the outcome of the HTTP POST
(lines 437-452) — either a raised exception or an HTTP status code. -/
structure StoreEnv where
  api_key : Option String
  postStatus : Except Exn Nat

/-- The `memory_content` dictionary prepared at lines 425-434. -/
structure MemoryContent where
  task_id : Value
  result_summary : FinalOutput
  confidence : ℚ
  agent_count : Nat
  processing_time : ℚ
  timestamp : ℚ
deriving DecidableEq

/-- Lines 425-434: every `.get` there hits a field `_consolidate_results`
always sets, so no defaults fire. -/
def prepare_memory_content (task_id : Value) (result : Consolidated) (now : ℚ) :
    MemoryContent :=
  { task_id := task_id
    result_summary := result.final_output
    confidence := result.confidence_score
    agent_count := result.agent_count
    processing_time := result.processing_time
    timestamp := now }

/-- What `_store_in_memory` did: returned early for a missing key (lines
420-422), stored with HTTP 200 (line 449), logged a non-200 status (line
452), or caught a raised exception (lines 453-454).  The function itself
returns `None` in every case — this effect value is all that
distinguishes the branches. -/
inductive StoreEffect where
  | skippedNoKey
  | storedOk (content : MemoryContent)
  | storeFailedStatus (status : Nat) (content : MemoryContent)
  | storeError (e : Exn)

/-- `_store_in_memory(task_id, result)` (lines 418-454): total — every
failure branch is swallowed (logged) and nothing is ever raised to the
caller, and no value is returned. -/
def store_in_memory (env : StoreEnv) (task_id : Value) (result : Consolidated)
    (now : ℚ) : StoreEffect :=
  match env.api_key with
  | none => StoreEffect.skippedNoKey
  | some _ =>
    let content := prepare_memory_content task_id result now
    match env.postStatus with
    | Except.error e => StoreEffect.storeError e
    | Except.ok 200 => StoreEffect.storedOk content
    | Except.ok s => StoreEffect.storeFailedStatus s content

/-- Lines 282-290 of `process_cognitive_task`, with the agent allocation
passed in explicitly: coordinate, consolidate, store (effect discarded —
the code keeps no return value from `_store_in_memory`), and return the
consolidated result. -/
def process_task_with_agents (agents : AgentMap) (agent_ids : List String)
    (task : Task) (ex : Executor) (env : StoreEnv) (now : ℚ) :
    Except Exn Consolidated :=
  let task_id := taskIdOf task now
  match coordinate_agent_execution agents task agent_ids ex with
  | Except.error e => Except.error e
  | Except.ok results =>
    let final := consolidate_results results task_id now
    let _eff := store_in_memory env task_id final now
    Except.ok final

/-- `_get_agents_by_capability(capability)` (lines 305-310). -/
def get_agents_by_capability (agents : AgentMap) (capability : String) :
    List String :=
  (agents.filter (fun p => p.2.capabilities.contains capability)).map Prod.fst

/-- `_allocate_agents_for_task(task_type)` (lines 292-303); the fallback
takes the first nine agent ids containing `"trinity"`. -/
def allocate_agents_for_task (agents : AgentMap) (task_type : Value) :
    List String :=
  if task_type = Value.vstr "file_organization" then
    get_agents_by_capability agents "file_categorization"
  else if task_type = Value.vstr "document_processing" then
    get_agents_by_capability agents "document_analysis"
  else if task_type = Value.vstr "code_analysis" then
    get_agents_by_capability agents "code_review"
  else
    ((agents.map Prod.fst).filter (fun id => strContains id "trinity")).take 9

/-- `process_cognitive_task(task)` (lines 271-290): read `id` and `type`
with defaults, allocate agents, then run the dispatch body. -/
def process_cognitive_task (agents : AgentMap) (task : Task) (ex : Executor)
    (env : StoreEnv) (now : ℚ) : Except Exn Consolidated :=
  let task_type := (taskGet task "type").getD (Value.vstr "general")
  process_task_with_agents agents (allocate_agents_for_task agents task_type)
    task ex env now

/-- The action-tag string of a subtask dictionary
(`subtask.get('action', 'unknown')`, line 376). -/
def actionName : Subtask → String
  | Subtask.dataIngestion _ => "data_ingestion"
  | Subtask.analysis _ => "analysis"
  | Subtask.resultSynthesis _ => "result_synthesis"
  | Subtask.specializedProcessing _ _ => "specialized_processing"
  | Subtask.generalProcessing _ => "general_processing"

/-- The literal stub `_execute_agent_task` (lines 359-381): always
returns a success dictionary with `status = "completed"` and a hardcoded
`cognitive_load = 0.85`. -/
def execute_agent_task_stub (agent_id : String) (subtask : Subtask) (now : ℚ) :
    AgentResult :=
  { agent_id := agent_id
    status := "completed"
    result := "Processed " ++ actionName subtask ++ " successfully"
    timestamp := now
    cognitive_load := (85 : ℚ) / 100 }

/-!
Session-memory store, `src/memory/auto_memory_bank.py`.  The JSON file is
modelled as `Option SessionStore`: `none` when `MEMORY_FILE` does not
exist, otherwise the parsed dictionary (`json.dump`/`json.load` round-trip
dictionaries losslessly, so the file content is identified with the
mapping itself).
-/

/-- The parsed content of `memory/session_memory.json`: a string-keyed
dictionary of chat data blobs. -/
abbrev SessionStore := List (String × Value)

/-- Python `mem[k] = v` on an insertion-ordered dict: replace in place
when the key exists, append otherwise. -/
def setKey : SessionStore → String → Value → SessionStore
  | [], k, v => [(k, v)]
  | (k', v') :: rest, k, v =>
    if k' = k then (k, v) :: rest else (k', v') :: setKey rest k v

/-- First-match lookup `mem[k]` / `mem.get(k)`. -/
def getKey : SessionStore → String → Option Value
  | [], _ => none
  | (k', v) :: rest, k => if k' = k then some v else getKey rest k

/-- The filesystem state visible to auto_memory_bank: `none` when the
memory file does not exist. -/
abbrev MemFS := Option SessionStore

/-- `save_chat_memory(session_id, chat_data)` (lines 12-22): read the
file if it exists (else start from `{}`), set the key, write back. -/
def save_chat_memory (fs : MemFS) (session_id : String) (chat_data : Value) :
    MemFS :=
  let mem := match fs with
    | some m => m
    | none => []
  some (setKey mem session_id chat_data)

/-- `load_all_session_memory()` (lines 24-29): `{}` when the file does not
exist, otherwise its parsed content. -/
def load_all_session_memory (fs : MemFS) : SessionStore :=
  match fs with
  | some m => m
  | none => []

/-!
Timing model for `_coordinate_agent_execution` under the asyncio event
loop, for the concurrency claim.  `asyncio.gather(*tasks)` (line 325)
schedules every `_execute_agent_task` coroutine; the loop runs each in
turn until its only suspension point `await asyncio.sleep(0.1)` (line
365).  Starting a coroutine consumes no simulated time, so all `n`
executions are in flight (inside `_execute_agent_task`, sleeping) before
the first 0.1 s timer expires; the timers then expire in start order.
The in-flight count after each start/finish event is therefore
`1, 2, ..., n, n-1, ..., 0`.  No semaphore, pool bound or limit parameter
appears anywhere in the function.
-/

/-- The sequence of in-flight `_execute_agent_task` counts after each
scheduling event when `n` agent tasks are gathered: `n` starts, then `n`
completions. -/
def inFlightTrace (n : Nat) : List Nat :=
  ((List.range n).map (fun i => i + 1)) ++ (List.range n).reverse

/-- The peak number of simultaneously in-flight executor calls over a
trace. -/
def maxInFlight (trace : List Nat) : Nat :=
  trace.foldr max 0

end GodMind

namespace GodMind

/-!
Concrete inputs used by witnesses and counterexamples, and decidability of
equality on `Except` values so concrete pipeline outcomes can be compared.
-/

instance {ε α : Type} [DecidableEq ε] [DecidableEq α] : DecidableEq (Except ε α) := fun x y =>
  match x, y with
  | Except.error a, Except.error b =>
    if h : a = b then isTrue (by rw [h]) else isFalse (fun hh => h (Except.error.inj hh))
  | Except.error _, Except.ok _ => isFalse (fun hh => Except.noConfusion hh)
  | Except.ok _, Except.error _ => isFalse (fun hh => Except.noConfusion hh)
  | Except.ok a, Except.ok b =>
    if h : a = b then isTrue (by rw [h]) else isFalse (fun hh => h (Except.ok.inj hh))

/-- A minimal task with an explicit id. -/
def genTask : Task := [("id", Value.vstr "t")]

/-- Two plain (non-trinity, non-specialist) workers. -/
def twoAgents : AgentMap :=
  [("w1", ⟨"w1", AgentTypeEnum.processor, []⟩), ("w2", ⟨"w2", AgentTypeEnum.processor, []⟩)]

/-- An executor whose call for worker `w1` raises and whose other calls
succeed with quality 1. -/
def oneFailEx : Executor := fun id _ _ =>
  if id = "w1" then Except.error Exn.workerUnavailableError
  else Except.ok ⟨id, "completed", "ok", 0, 1⟩

/-- A store environment with no API key configured (storage skipped). -/
def plainEnv : StoreEnv := ⟨none, Except.ok 200⟩

/-- An executor that raises `WorkerTimeoutError` on every call. -/
def failEx : Executor := fun _ _ _ => Except.error Exn.workerTimeoutError

/-- The three workers of the spec's concrete scenario (§8). -/
def scAgents : AgentMap :=
  [("w1", ⟨"w1", AgentTypeEnum.processor, []⟩),
   ("w2", ⟨"w2", AgentTypeEnum.processor, []⟩),
   ("w3", ⟨"w3", AgentTypeEnum.processor, []⟩)]

/-- The task `{id: "t1", type: "general"}` of the spec's concrete scenario. -/
def scTask : Task := [("id", Value.vstr "t1"), ("type", Value.vstr "general")]

/-- The scenario executor: `w2` raises `WorkerTimeoutError`, the others
succeed with quality 1.0. -/
def scExec : Executor := fun id _ _ =>
  if id = "w2" then Except.error Exn.workerTimeoutError
  else Except.ok ⟨id, "completed", "ok", 0, 1⟩

/-- Two distinguishable worker results. -/
def ra : AgentResult := ⟨"a", "completed", "r", 0, 1⟩

/-- Second worker result, differing from `ra` in id and quality. -/
def rb : AgentResult := ⟨"b", "completed", "r", 0, 0⟩

/-- A store environment whose HTTP POST succeeds with status 200. -/
def okStoreEnv : StoreEnv := ⟨some "key", Except.ok 200⟩

/-- A store environment whose HTTP POST raises. -/
def failStoreEnv : StoreEnv := ⟨some "key", Except.error Exn.workerTimeoutError⟩

/-!
Supporting lemmas.
-/

/-- Dropping the exception slots keeps exactly as many entries as there
are non-exception slots. -/
lemma length_filterMap_okValue {ε α : Type} (l : List (Except ε α)) :
    (l.filterMap okValue).length = l.countP (fun e => e.isOk) := by
  induction l with
  | nil => rfl
  | cons e t ih =>
    cases e <;> simp [okValue, List.countP_cons, Except.isOk, Except.toBool, ih]

/-- If every slot is an exception, filtering leaves nothing. -/
lemma filterMap_okValue_eq_nil {ε α : Type} {l : List (Except ε α)}
    (h : ∀ e ∈ l, e.isOk = false) : l.filterMap okValue = [] := by
  induction l with
  | nil => rfl
  | cons e t ih =>
    cases he : e with
    | ok a => have := h e (by simp); rw [he] at this; simp [Except.isOk, Except.toBool] at this
    | error b =>
      simp only [List.filterMap_cons, okValue]
      exact ih fun x hx => h x (by simp [hx])

/-- A fold by `max` is bounded by any bound on the elements. -/
lemma foldr_max_le {l : List Nat} {b : Nat} (h : ∀ x ∈ l, x ≤ b) :
    l.foldr max 0 ≤ b := by
  induction l with
  | nil => simp
  | cons a t ih =>
    simp only [List.foldr_cons]
    exact max_le (h a (by simp)) (ih fun x hx => h x (by simp [hx]))

/-- A fold by `max` dominates every element. -/
lemma le_foldr_max {l : List Nat} {a : Nat} (h : a ∈ l) : a ≤ l.foldr max 0 := by
  induction l with
  | nil => cases h
  | cons b t ih =>
    rcases List.mem_cons.mp h with h1 | h2
    · subst h1; exact le_max_left _ _
    · exact le_trans (ih h2) (le_max_right _ _)

/-- Updating the same key with the same value twice equals doing it once. -/
lemma setKey_idem (m : SessionStore) (k : String) (v : Value) :
    setKey (setKey m k v) k v = setKey m k v := by
  induction m with
  | nil => simp [setKey]
  | cons p rest ih =>
    obtain ⟨k', v'⟩ := p
    by_cases hk : k' = k
    · subst hk; simp [setKey]
    · simp [setKey, hk, ih]

/-- The successfully built agent-task list pairs each requested agent id,
in order, with its subtask. -/
lemma build_agent_tasks_fst (agents : AgentMap) (task : Task) :
    ∀ (ids : List String) (pairs : List (String × Subtask)),
      build_agent_tasks agents task ids = Except.ok pairs →
      pairs.map Prod.fst = ids := by
  intro ids
  induction ids with
  | nil =>
    intro pairs h
    simp only [build_agent_tasks] at h
    cases h
    rfl
  | cons id rest ih =>
    intro pairs h
    simp only [build_agent_tasks] at h
    cases hd : decompose_task_for_agent agents task id with
    | error e => rw [hd] at h; cases h
    | ok st =>
      rw [hd] at h
      cases ht : build_agent_tasks agents task rest with
      | error e => rw [ht] at h; cases h
      | ok others =>
        rw [ht] at h
        cases h
        simp [ih others ht]

/-- Reading back the key just written yields the written value. -/
lemma getKey_setKey_self (m : SessionStore) (k : String) (v : Value) :
    getKey (setKey m k v) k = some v := by
  induction m with
  | nil => simp [setKey, getKey]
  | cons p rest ih =>
    obtain ⟨k', v'⟩ := p
    by_cases hk : k' = k
    · subst hk; simp [setKey, getKey]
    · simp [setKey, getKey, hk, ih]

/-- Writing one key leaves every other key's binding unchanged. -/
lemma getKey_setKey_ne (m : SessionStore) (k k' : String) (v : Value) (h : k' ≠ k) :
    getKey (setKey m k v) k' = getKey m k' := by
  induction m with
  | nil => simp [setKey, getKey, Ne.symm h]
  | cons p rest ih =>
    obtain ⟨k0, v0⟩ := p
    by_cases hk : k0 = k
    · subst hk
      simp [setKey, getKey, Ne.symm h]
    · simp [setKey, getKey, hk, ih]

end GodMind

namespace GodMind

/-- C1 (amended): dispatch never aborts sibling subtasks — every worker's
execution is attempted and every successful result flows into the outcome
— but a worker whose execution raises is NOT recorded as a failed result:
the exception slot is filtered out, so the outcome is the consolidation of
the successful results only, and its `agent_count` equals the number of
successful executions rather than the number of dispatched workers. -/
theorem claim1_amended (agents : AgentMap) (ids : List String) (task : Task)
    (ex : Executor) (env : StoreEnv) (now : ℚ) (pairs : List (String × Subtask))
    (hb : build_agent_tasks agents task ids = Except.ok pairs) :
    process_task_with_agents agents ids task ex env now =
      Except.ok (consolidate_results
        ((pairs.map (fun p => ex p.1 p.2 (taskGet task "context"))).filterMap okValue)
        (taskIdOf task now) now) ∧
    ((pairs.map (fun p => ex p.1 p.2 (taskGet task "context"))).filterMap okValue).length
      = pairs.countP (fun p => (ex p.1 p.2 (taskGet task "context")).isOk) := by
  constructor
  · simp [process_task_with_agents, coordinate_agent_execution, hb]
  · rw [length_filterMap_okValue, List.countP_map]
    rfl

/-- C1 witness: `claim1_amended` instantiated at one worker whose
execution succeeds. -/
theorem claim1_witness :
    process_task_with_agents twoAgents ["w2"] genTask oneFailEx plainEnv 0 =
      Except.ok (consolidate_results
        (([("w2", Subtask.generalProcessing genTask)].map
            (fun p => oneFailEx p.1 p.2 (taskGet genTask "context"))).filterMap okValue)
        (taskIdOf genTask 0) 0) ∧
    (([("w2", Subtask.generalProcessing genTask)].map
        (fun p => oneFailEx p.1 p.2 (taskGet genTask "context"))).filterMap okValue).length
      = [("w2", Subtask.generalProcessing genTask)].countP
          (fun p => (oneFailEx p.1 p.2 (taskGet genTask "context")).isOk) :=
  claim1_amended twoAgents ["w2"] genTask oneFailEx plainEnv 0
    [("w2", Subtask.generalProcessing genTask)] rfl

/-- C1 counterexample: with workers `w1, w2` where `w1`'s execution
raises, the outcome is literally identical to dispatching `w2` alone, and
its `agent_count` is 1, not 2 — so no pair of outcome counts sums to the
number of dispatched workers and the failed worker is silently dropped,
refuting `succeeded + failed = len(workers)` and "recorded ... not
silently dropped". -/
theorem claim1_counterexample :
    process_task_with_agents twoAgents ["w1", "w2"] genTask oneFailEx plainEnv 0 =
      process_task_with_agents twoAgents ["w2"] genTask oneFailEx plainEnv 0 ∧
    process_task_with_agents twoAgents ["w1", "w2"] genTask oneFailEx plainEnv 0 =
      Except.ok (consolidate_results [⟨"w2", "completed", "ok", 0, 1⟩] (Value.vstr "t") 0) ∧
    (consolidate_results [⟨"w2", "completed", "ok", 0, 1⟩] (Value.vstr "t") 0).agent_count = 1 :=
  ⟨rfl, rfl, rfl⟩

/-- C2: when every worker execution of a non-empty dispatch fails, the
dispatch returns normally (an `Except.ok`, no exception escapes) with
zero successes (`agent_count = 0`, empty synthesis), `confidence_score =
0` (the `if results else 0.0` guard, no division by zero), and the
final output is `_generate_final_output([])`, whose `agent_consensus = 0`
is the code's explicit marker that no results contributed. -/
theorem claim2_confirmed (agents : AgentMap) (ids : List String) (task : Task)
    (ex : Executor) (env : StoreEnv) (now : ℚ) (pairs : List (String × Subtask))
    (_hne : ids ≠ [])
    (hb : build_agent_tasks agents task ids = Except.ok pairs)
    (hfail : ∀ id st c, (ex id st c).isOk = false) :
    ∃ out, process_task_with_agents agents ids task ex env now = Except.ok out ∧
      out.agent_count = 0 ∧ out.confidence_score = 0 ∧
      out.cognitive_synthesis = [] ∧
      out.final_output = generate_final_output [] ∧
      out.final_output.agent_consensus = 0 := by
  have hnil : ((pairs.map (fun p => ex p.1 p.2 (taskGet task "context"))).filterMap okValue) = [] := by
    apply filterMap_okValue_eq_nil
    intro e he
    rcases List.mem_map.mp he with ⟨p, _, rfl⟩
    exact hfail _ _ _
  refine ⟨consolidate_results [] (taskIdOf task now) now, ?_, rfl, rfl, rfl, rfl, rfl⟩
  rw [← hnil]
  simp [process_task_with_agents, coordinate_agent_execution, hb]

/-- C2 witness: one worker whose execution always raises
`WorkerTimeoutError`. -/
theorem claim2_witness :
    ∃ out, process_task_with_agents twoAgents ["w1"] genTask failEx plainEnv 0 = Except.ok out ∧
      out.agent_count = 0 ∧ out.confidence_score = 0 ∧
      out.cognitive_synthesis = [] ∧
      out.final_output = generate_final_output [] ∧
      out.final_output.agent_consensus = 0 :=
  claim2_confirmed twoAgents ["w1"] genTask failEx plainEnv 0
    [("w1", Subtask.generalProcessing genTask)] (List.cons_ne_nil _ _) rfl
    (fun _ _ _ => rfl)

/-- C3 (amended): dispatching with an empty worker sequence does not fail
at all — the code contains no `InvalidTaskError` and performs no
emptiness check — it returns normally, without invoking the executor
(the result is the same for every executor, definitionally), with an
all-zero outcome: `agent_count = 0` and `confidence_score = 0`. -/
theorem claim3_amended (agents : AgentMap) (task : Task) (ex : Executor)
    (env : StoreEnv) (now : ℚ) :
    process_task_with_agents agents [] task ex env now =
      Except.ok (consolidate_results [] (taskIdOf task now) now) ∧
    (consolidate_results [] (taskIdOf task now) now).agent_count = 0 ∧
    (consolidate_results [] (taskIdOf task now) now).confidence_score = 0 :=
  ⟨rfl, rfl, rfl⟩

/-- C3 counterexample: with an empty agent pool the allocation is empty
and `process_cognitive_task` returns `Except.ok` (an outcome, not a
raised `InvalidTaskError`), refuting "fails with InvalidTaskError". -/
theorem claim3_counterexample :
    process_cognitive_task [] [("id", Value.vstr "t1")] failEx plainEnv 0 =
      Except.ok (consolidate_results [] (Value.vstr "t1") 0) := rfl

/-- C4 (amended): consolidation is a pure function of the result set AND
the wall-clock time (`processing_time = time.time()`), not of the result
set alone; its confidence score is the arithmetic mean of
`cognitive_load` over the results it receives — which are exactly the
successful executions, the exceptions having been filtered out — or 0
when there are none.  In the spec's concrete scenario (3 workers, `w2`
raises `WorkerTimeoutError`, the others succeed with quality 1.0) the
outcome has `agent_count = 2` and `confidence_score = 1`, but no failed
count of any kind is recorded in the outcome. -/
theorem claim4_amended :
    (∀ (agents : AgentMap) (ids : List String) (task : Task) (ex : Executor)
        (env : StoreEnv) (now : ℚ) (pairs : List (String × Subtask)),
      build_agent_tasks agents task ids = Except.ok pairs →
      ∃ out, process_task_with_agents agents ids task ex env now = Except.ok out ∧
        out.cognitive_synthesis =
          (pairs.map (fun p => ex p.1 p.2 (taskGet task "context"))).filterMap okValue ∧
        out.confidence_score =
          (if out.cognitive_synthesis = [] then 0
           else (out.cognitive_synthesis.map (fun r => r.cognitive_load)).sum /
             out.cognitive_synthesis.length)) ∧
    (∃ out, process_task_with_agents scAgents ["w1", "w2", "w3"] scTask scExec plainEnv 0 =
        Except.ok out ∧ out.agent_count = 2 ∧ out.confidence_score = 1) := by
  constructor
  · intro agents ids task ex env now pairs hb
    have hproc : process_task_with_agents agents ids task ex env now =
        Except.ok (consolidate_results
          ((pairs.map (fun p => ex p.1 p.2 (taskGet task "context"))).filterMap okValue)
          (taskIdOf task now) now) := by
      simp [process_task_with_agents, coordinate_agent_execution, hb]
    exact ⟨_, hproc, rfl, rfl⟩
  · refine ⟨consolidate_results
      [⟨"w1", "completed", "ok", 0, 1⟩, ⟨"w3", "completed", "ok", 0, 1⟩]
      (Value.vstr "t1") 0, rfl, rfl, ?_⟩
    simp only [consolidate_results]
    rw [if_neg (List.cons_ne_nil _ _)]
    norm_num

/-- C4 witness: the general clause of `claim4_amended` instantiated at a
single-worker dispatch. -/
theorem claim4_witness :
    ∃ out, process_task_with_agents scAgents ["w1"] scTask scExec plainEnv 0 = Except.ok out ∧
      out.cognitive_synthesis =
        ([("w1", Subtask.generalProcessing scTask)].map
          (fun p => scExec p.1 p.2 (taskGet scTask "context"))).filterMap okValue ∧
      out.confidence_score =
        (if out.cognitive_synthesis = [] then 0
         else (out.cognitive_synthesis.map (fun r => r.cognitive_load)).sum /
           out.cognitive_synthesis.length) :=
  claim4_amended.1 scAgents ["w1"] scTask scExec plainEnv 0
    [("w1", Subtask.generalProcessing scTask)] rfl

/-- C4 counterexample: consolidating the same result set at two different
times yields different outcomes (`processing_time` differs), refuting
"consolidate is a pure function of the result set". -/
theorem claim4_counterexample :
    consolidate_results [⟨"w1", "completed", "ok", 0, 1⟩] (Value.vstr "t") 0 ≠
      consolidate_results [⟨"w1", "completed", "ok", 0, 1⟩] (Value.vstr "t") 1 := by
  intro h
  exact absurd (congrArg Consolidated.processing_time h) (by norm_num [consolidate_results])

/-- C5 (amended): dispatch imposes no concurrency cap whatsoever — there
is no `concurrency_limit` parameter, semaphore or pool bound in the code,
and under the event-loop timing model of the single unbounded
`asyncio.gather` the peak number of simultaneously in-flight executor
calls equals the full number of dispatched workers. -/
theorem claim5_amended (n : Nat) : maxInFlight (inFlightTrace n) = n := by
  apply le_antisymm
  · apply foldr_max_le
    intro x hx
    simp only [inFlightTrace, List.mem_append, List.mem_map, List.mem_reverse,
      List.mem_range] at hx
    rcases hx with ⟨i, hi, rfl⟩ | hx <;> omega
  · cases n with
    | zero => simp [maxInFlight, inFlightTrace]
    | succ m =>
      apply le_foldr_max
      simp only [inFlightTrace, List.mem_append, List.mem_map, List.mem_range]
      exact Or.inl ⟨m, Nat.lt_succ_self m, rfl⟩

/-- C5 counterexample: with 5 workers the peak in-flight count is 5, so
the claimed bound "at most one in-flight call with concurrency_limit = 1"
fails (as does any cap below 5). -/
theorem claim5_counterexample :
    maxInFlight (inFlightTrace 5) = 5 ∧ ¬ maxInFlight (inFlightTrace 5) ≤ 1 := by decide

/-- C6 (amended): all fields of the consolidated outcome except
`cognitive_synthesis` are invariant under permutation of the result set
(counts, confidence in exact arithmetic, final output, task id, status,
processing time); the full `TaskOutcome` is NOT order-independent because
`cognitive_synthesis` lists the results in completion order. -/
theorem claim6_amended (l1 l2 : List AgentResult) (tid : Value) (now : ℚ)
    (h : l1.Perm l2) :
    (consolidate_results l1 tid now).agent_count =
      (consolidate_results l2 tid now).agent_count ∧
    (consolidate_results l1 tid now).confidence_score =
      (consolidate_results l2 tid now).confidence_score ∧
    (consolidate_results l1 tid now).final_output =
      (consolidate_results l2 tid now).final_output ∧
    (consolidate_results l1 tid now).task_id = (consolidate_results l2 tid now).task_id ∧
    (consolidate_results l1 tid now).status = (consolidate_results l2 tid now).status ∧
    (consolidate_results l1 tid now).processing_time =
      (consolidate_results l2 tid now).processing_time := by
  have hlen := h.length_eq
  have hsum : (l1.map (fun r => r.cognitive_load)).sum =
      (l2.map (fun r => r.cognitive_load)).sum := (h.map _).sum_eq
  refine ⟨by simp [consolidate_results, hlen], ?_,
    by simp [consolidate_results, generate_final_output, hlen], rfl, rfl, rfl⟩
  simp only [consolidate_results]
  by_cases h1 : l1 = []
  · subst h1
    have h2 : l2 = [] := List.length_eq_zero.mp (by simpa using hlen.symm)
    subst h2; rfl
  · have h2 : l2 ≠ [] := fun hh => h1 (List.length_eq_zero.mp (by rw [hlen, hh]; rfl))
    rw [if_neg h1, if_neg h2, hsum, hlen]

/-- C6 witness: `claim6_amended` at the concrete transposition of two
results. -/
theorem claim6_witness :
    (consolidate_results [ra, rb] (Value.vstr "t") 0).agent_count =
      (consolidate_results [rb, ra] (Value.vstr "t") 0).agent_count ∧
    (consolidate_results [ra, rb] (Value.vstr "t") 0).confidence_score =
      (consolidate_results [rb, ra] (Value.vstr "t") 0).confidence_score ∧
    (consolidate_results [ra, rb] (Value.vstr "t") 0).final_output =
      (consolidate_results [rb, ra] (Value.vstr "t") 0).final_output ∧
    (consolidate_results [ra, rb] (Value.vstr "t") 0).task_id =
      (consolidate_results [rb, ra] (Value.vstr "t") 0).task_id ∧
    (consolidate_results [ra, rb] (Value.vstr "t") 0).status =
      (consolidate_results [rb, ra] (Value.vstr "t") 0).status ∧
    (consolidate_results [ra, rb] (Value.vstr "t") 0).processing_time =
      (consolidate_results [rb, ra] (Value.vstr "t") 0).processing_time :=
  claim6_amended [ra, rb] [rb, ra] (Value.vstr "t") 0 (by decide)

/-- C6 counterexample: swapping two distinct results changes the outcome
(the `cognitive_synthesis` list preserves completion order), refuting
"consolidate applied to the permuted sequence yields the same
TaskOutcome". -/
theorem claim6_counterexample :
    consolidate_results [ra, rb] (Value.vstr "t") 0 ≠
      consolidate_results [rb, ra] (Value.vstr "t") 0 := by
  intro h
  have h2 := congrArg (fun c => c.cognitive_synthesis.map (fun r => r.agent_id)) h
  simp [consolidate_results, ra, rb] at h2

/-- C7: the session store's persist operation is idempotent — saving the
same `(session_id, chat_data)` twice in succession leaves the stored
mapping in exactly the state produced by saving it once, from any prior
store state (file absent or any existing content). -/
theorem claim7_confirmed (fs : MemFS) (sid : String) (d : Value) :
    save_chat_memory (save_chat_memory fs sid d) sid d = save_chat_memory fs sid d := by
  cases fs <;> simp [save_chat_memory, setKey_idem]

/-- C8 (amended): the outcome returned by dispatch is completely
independent of the storage step — it equals the consolidation of the
coordination results for every store environment, so a storage failure
never invalidates or alters the computed outcome and is never thrown;
but, contrary to the claim, no field of the return value reports whether
storage succeeded (the failure is only logged and swallowed). -/
theorem claim8_amended (agents : AgentMap) (ids : List String) (task : Task)
    (ex : Executor) (env env' : StoreEnv) (now : ℚ) :
    process_task_with_agents agents ids task ex env now =
      process_task_with_agents agents ids task ex env' now ∧
    process_task_with_agents agents ids task ex env now =
      (coordinate_agent_execution agents task ids ex).map
        (fun results => consolidate_results results (taskIdOf task now) now) := by
  constructor
  · simp only [process_task_with_agents]
  · simp only [process_task_with_agents]
    cases coordinate_agent_execution agents task ids ex <;> rfl

/-- C8 counterexample: a dispatch whose HTTP store step raises returns a
value literally identical to the same dispatch whose store step succeeds
with status 200, even though the storage effects differ — hence no field
of the dispatch's return value (no `stored` flag) reports the storage
failure, refuting that part of the claim. -/
theorem claim8_counterexample :
    process_task_with_agents twoAgents ["w1", "w2"] genTask oneFailEx failStoreEnv 0 =
      process_task_with_agents twoAgents ["w1", "w2"] genTask oneFailEx okStoreEnv 0 ∧
    store_in_memory failStoreEnv (Value.vstr "t")
        (consolidate_results [] (Value.vstr "t") 0) 0 =
      StoreEffect.storeError Exn.workerTimeoutError ∧
    store_in_memory okStoreEnv (Value.vstr "t")
        (consolidate_results [] (Value.vstr "t") 0) 0 =
      StoreEffect.storedOk (prepare_memory_content (Value.vstr "t")
        (consolidate_results [] (Value.vstr "t") 0) 0) :=
  ⟨rfl, rfl, rfl⟩

/-- C9 (amended): decomposition produces exactly one subtask per worker,
pairing every requested agent id in order; but the action assigned does
not depend on the task type at all — it is chosen from the worker's agent
type and id.  Only a worker that is neither trinity nor specialist (or a
trinity worker whose id contains none of the role substrings) receives
the `general_processing` action with the full task payload. -/
theorem claim9_amended :
    (∀ (agents : AgentMap) (task : Task) (ids : List String)
        (pairs : List (String × Subtask)),
      build_agent_tasks agents task ids = Except.ok pairs →
      pairs.map Prod.fst = ids ∧ pairs.length = ids.length) ∧
    (∀ (a : Agent) (id : String) (task : Task),
      a.agent_type ≠ AgentTypeEnum.trinity → a.agent_type ≠ AgentTypeEnum.specialist →
      decompose_for a id task = Except.ok (Subtask.generalProcessing task)) ∧
    (∀ (a : Agent) (id : String) (task : Task),
      a.agent_type = AgentTypeEnum.trinity →
      strContains id "ingest" = false → strContains id "analyze" = false →
      strContains id "publish" = false →
      decompose_for a id task = Except.ok (Subtask.generalProcessing task)) := by
  refine ⟨?_, ?_, ?_⟩
  · intro agents task ids pairs h
    have hfst := build_agent_tasks_fst agents task ids pairs h
    exact ⟨hfst, by rw [← hfst]; simp⟩
  · intro a id task h1 h2
    simp [decompose_for, if_neg h1, if_neg h2]
  · intro a id task h1 h2 h3 h4
    simp [decompose_for, h1, h2, h3, h4]

/-- C9 witness: a memory-type worker receives `general_processing`. -/
theorem claim9_witness :
    decompose_for ⟨"m1", AgentTypeEnum.memory, []⟩ "m1" [] =
      Except.ok (Subtask.generalProcessing []) :=
  claim9_amended.2.1 ⟨"m1", AgentTypeEnum.memory, []⟩ "m1" []
    (by decide) (by decide)

/-- C9 counterexample: for a task whose type (`"mystery_type"`) is in no
decomposition table, a trinity worker still receives the role-based
`data_ingestion` action, not `general_processing` with the full payload —
decomposition branches on the agent, never on the task type. -/
theorem claim9_counterexample :
    decompose_task_for_agent
        [("trinity_00_ingest", ⟨"trinity_00_ingest", AgentTypeEnum.trinity,
          ["data_processing", "analysis", "content_generation"]⟩)]
        [("id", Value.vstr "t1"), ("type", Value.vstr "mystery_type")]
        "trinity_00_ingest" ≠
      Except.ok (Subtask.generalProcessing
        [("id", Value.vstr "t1"), ("type", Value.vstr "mystery_type")]) := by decide

/-- C10: round-trip of the session memory store — after
`save_chat_memory(session_id, chat_data)`, `load_all_session_memory()`
maps `session_id` to `chat_data` and leaves every other session's entry
unchanged, from any prior file state; and when the memory file does not
exist, `load_all_session_memory()` returns the empty mapping. -/
theorem claim10_confirmed (fs : MemFS) (sid : String) (d : Value) :
    getKey (load_all_session_memory (save_chat_memory fs sid d)) sid = some d ∧
    (∀ k, k ≠ sid → getKey (load_all_session_memory (save_chat_memory fs sid d)) k =
      getKey (load_all_session_memory fs) k) ∧
    load_all_session_memory none = [] := by
  refine ⟨?_, ?_, rfl⟩
  · cases fs <;> simp [save_chat_memory, load_all_session_memory, getKey_setKey_self]
  · intro k hk
    cases fs <;>
      simp [save_chat_memory, load_all_session_memory, getKey_setKey_ne _ _ _ _ hk,
        getKey, Ne.symm hk]

/-- C10 witness: `claim10_confirmed` at a store holding session `"a"`,
saving session `"s"`: session `"a"` is unchanged. -/
theorem claim10_witness :
    getKey (load_all_session_memory
        (save_chat_memory (some [("a", Value.vstr "x")]) "s" (Value.vstr "y"))) "a" =
      getKey (load_all_session_memory (some [("a", Value.vstr "x")])) "a" :=
  (claim10_confirmed (some [("a", Value.vstr "x")]) "s" (Value.vstr "y")).2.1 "a"
    (by decide)

end GodMind
